import Mathlib

/-!
Verification of the ticket messaging / broadcast subsystem of the
customer-service backend (src/main.py, src/schemas.py).

The embedding models the handlers that touch the per-ticket WebSocket
registry: `post_message` (POST /tickets/{ticket_id}/messages) with its
broadcast loop, `WSManager.connect` / `WSManager.disconnect` /
`WSManager.safe_send`, the `ticket_ws` WebSocket endpoint, and the
ticket read/update handlers (`get_ticket`, `update_ticket`) together
with the `oid` identifier parser.

WebSocket connection handles are modelled as naturals; each handle
carries an inbox listing the frames the server has sent to it.  Send
failures are modelled by a predicate `sendOk : Handle → Bool` saying
which connections currently accept a send (`safe_send` swallows the
failure either way).
-/

namespace CustomerService

/-- A live WebSocket connection handle. -/
abbrev Handle := Nat

/-- A `fastapi.HTTPException` raised by a handler. -/
structure HTTPError where
  status : Nat
  detail : String
deriving DecidableEq, Repr

/-- A frame a client receives from the server on its WebSocket: either a
plain text echo (`websocket.send_text(data)` in `ticket_ws`) or the JSON
serialization of a payload dict (`safe_send` sends `json.dumps(data)`).
All payload values are strings after `ObjectIdEncoder.encode_doc`
(identifiers stringified, datetimes ISO-formatted), so a payload is a
list of string key/value pairs. -/
inductive Frame where
  | text (s : String)
  | json (fields : List (String × String))
deriving DecidableEq, Repr

/-- src/schemas.py `Message` (pydantic): the body of
POST /tickets/{ticket_id}/messages.  `type` is `Literal["text","system"]`. -/
structure Message where
  ticket_id : String
  sender_email : String
  content : String
  type : String
deriving DecidableEq, Repr

/-- Modelled from the spec: `database.create_document` lives in database.py,
which is not under src/.  Per the spec (§3, §6) a persisted Message carries
"identifier, owning ticket identifier, sender email, text content, type,
creation timestamp", the identifier and the creation timestamp being
generated at persistence time. -/
structure MessageDoc where
  _id : Nat
  ticket_id : String
  sender_email : String
  content : String
  type : String
  created_at : Nat
deriving DecidableEq, Repr

/-- A stored ticket document (src/schemas.py `Ticket` plus the generated
identifier and timestamps). -/
structure TicketDoc where
  _id : String
  title : String
  description : String
  status : String
  priority : String
  customer_email : String
  assigned_to : Option String
  created_at : Nat
  updated_at : Nat
deriving DecidableEq, Repr

/-- The document store, restricted to the collections the claims touch.
`nextId` generates fresh message identifiers; `now` is the clock read by
the handlers. -/
structure DB where
  tickets : List TicketDoc
  messages : List MessageDoc
  nextId : Nat
  now : Nat
deriving DecidableEq, Repr

/-- A string parses as a BSON ObjectId iff it is exactly 24 hexadecimal
characters (`bson.ObjectId(id_str)` on a string argument). -/
def isValidObjectId (s : String) : Bool :=
  s.length == 24 && s.toList.all fun c =>
    c.isDigit || (Char.ofNat 97 ≤ c && c ≤ Char.ofNat 102) ||
      (Char.ofNat 65 ≤ c && c ≤ Char.ofNat 70)

/-- src/main.py `oid`: parse the path identifier, 400 on bad format. -/
def oid (id_str : String) : Except HTTPError String :=
  if isValidObjectId id_str then .ok id_str
  else .error ⟨400, "Invalid ID format"⟩

/-- src/main.py `ObjectIdEncoder.encode_doc` on a message document: every
field stringified; `_id` is popped and re-inserted as `id` (which moves it
to the end of the dict). -/
def encode_doc (d : MessageDoc) : List (String × String) :=
  [("ticket_id", d.ticket_id), ("sender_email", d.sender_email),
   ("content", d.content), ("type", d.type),
   ("created_at", toString d.created_at), ("id", toString d._id)]

/-- `ObjectIdEncoder.encode_doc` on a ticket document. -/
def encode_ticket_doc (d : TicketDoc) : List (String × String) :=
  [("title", d.title), ("description", d.description),
   ("status", d.status), ("priority", d.priority),
   ("customer_email", d.customer_email),
   ("assigned_to", d.assigned_to.getD "null"),
   ("created_at", toString d.created_at),
   ("updated_at", toString d.updated_at), ("id", d._id)]

/-- src/main.py `WSManager.active_connections : Dict[str, List[WebSocket]]`,
read through `.get(ticket_id, [])`: a key that was never set reads as the
empty list. -/
abbrev Registry := String → List Handle

/-- The registration step of `WSManager.connect` (after `websocket.accept()`):
`self.active_connections.setdefault(ticket_id, []).append(websocket)`. -/
def connect (m : Registry) (ticket_id : String) (ws : Handle) : Registry :=
  fun t => if t = ticket_id then m t ++ [ws] else m t

/-- src/main.py `WSManager.disconnect`: `conns.remove(websocket)` guarded by
`if websocket in conns` — remove the first occurrence, no-op if absent. -/
def disconnect (m : Registry) (ticket_id : String) (ws : Handle) : Registry :=
  fun t => if t = ticket_id then (m t).erase ws else m t

/-- The full state the handlers act on: document store, broadcast registry
and the frames each connection has received so far. -/
structure World where
  db : DB
  manager : Registry
  inbox : Handle → List Frame

/-- src/main.py `WSManager.safe_send` (as called inside `post_message`'s
per-connection try/except): deliver the JSON payload if the connection
accepts the send, swallow the failure otherwise — never an error. -/
def safe_send (sendOk : Handle → Bool) (ws : Handle) (p : List (String × String))
    (inbox : Handle → List Frame) : Handle → List Frame :=
  if sendOk ws then
    fun h => if h = ws then inbox h ++ [Frame.json p] else inbox h
  else inbox

/-- The broadcast loop of `post_message`: attempt delivery to every
connection registered for the ticket, in registration order. -/
def broadcast (conns : List Handle) (sendOk : Handle → Bool)
    (p : List (String × String)) (inbox : Handle → List Frame) :
    Handle → List Frame :=
  match conns with
  | [] => inbox
  | ws :: rest => broadcast rest sendOk p (safe_send sendOk ws p inbox)

/-- The document persisted for `msg`: the pydantic fields plus the generated
identifier and creation timestamp (see `MessageDoc`). -/
def newMessageDoc (db : DB) (msg : Message) : MessageDoc :=
  ⟨db.nextId, msg.ticket_id, msg.sender_email, msg.content, msg.type, db.now⟩

/-- The payload `post_message` hands to `safe_send` for each listener: the
encoded persisted document plus the `event = "new_message"` discriminator. -/
def publishedPayload (db : DB) (msg : Message) : List (String × String) :=
  encode_doc (newMessageDoc db msg) ++ [("event", "new_message")]

/-- src/main.py `post_message` (POST /tickets/{ticket_id}/messages): 400 when
the body's ticket_id differs from the path, otherwise persist the message,
broadcast it to every connection registered under the path's ticket_id, and
return the encoded document.  Note the handler never validates the format of
`ticket_id` itself. -/
def post_message (w : World) (sendOk : Handle → Bool) (ticket_id : String)
    (msg : Message) :
    Except HTTPError (List (String × String)) × World :=
  if msg.ticket_id ≠ ticket_id then
    (.error ⟨400, "ticket_id mismatch"⟩, w)
  else
    let doc := newMessageDoc w.db msg
    let db2 : DB := { w.db with
      messages := w.db.messages ++ [doc], nextId := w.db.nextId + 1 }
    let inbox2 := broadcast (w.manager ticket_id) sendOk
      (publishedPayload w.db msg) w.inbox
    (.ok (encode_doc doc), ⟨db2, w.manager, inbox2⟩)

/-- src/main.py `get_ticket` (GET /tickets/{ticket_id}): parse the id
(400 on bad format), then look the document up (404 when absent). -/
def get_ticket (db : DB) (ticket_id : String) :
    Except HTTPError (List (String × String)) :=
  match oid ticket_id with
  | .error e => .error e
  | .ok i =>
    match db.tickets.find? (fun t => t._id == i) with
    | none => .error ⟨404, "Ticket not found"⟩
    | some doc => .ok (encode_ticket_doc doc)

/-- src/main.py `TicketUpdate` (pydantic): the PATCH body, all optional. -/
structure TicketUpdate where
  title : Option String := none
  description : Option String := none
  status : Option String := none
  priority : Option String := none
  assigned_to : Option String := none
deriving DecidableEq, Repr

/-- Whether `payload.model_dump()` has any non-None entry. -/
def TicketUpdate.nonempty (u : TicketUpdate) : Bool :=
  u.title.isSome || u.description.isSome || u.status.isSome ||
    u.priority.isSome || u.assigned_to.isSome

/-- `$set` of the non-None fields plus `updated_at`. -/
def applyUpdates (t : TicketDoc) (u : TicketUpdate) (now : Nat) : TicketDoc :=
  { t with
    title := u.title.getD t.title
    description := u.description.getD t.description
    status := u.status.getD t.status
    priority := u.priority.getD t.priority
    assigned_to := u.assigned_to.orElse fun _ => t.assigned_to
    updated_at := now }

/-- `update_one({_id: i}, {$set: updates})`: update the first match only. -/
def updateFirst : List TicketDoc → String → TicketUpdate → Nat → List TicketDoc
  | [], _, _, _ => []
  | t :: ts, i, u, now =>
    if t._id == i then applyUpdates t u now :: ts
    else t :: updateFirst ts i u now

/-- src/main.py `update_ticket` (PATCH /tickets/{ticket_id}): an all-None
body returns `{"updated": False}` before the identifier is even parsed;
otherwise the id is parsed (400 on bad format), the first matching ticket
updated (404 when none matched), and the updated document re-read and
returned. -/
def update_ticket (db : DB) (ticket_id : String) (payload : TicketUpdate) :
    Except HTTPError (List (String × String)) × DB :=
  if ¬ payload.nonempty then
    (.ok [("updated", "false")], db)
  else
    match oid ticket_id with
    | .error e => (.error e, db)
    | .ok i =>
      match db.tickets.find? (fun t => t._id == i) with
      | none => (.error ⟨404, "Ticket not found"⟩, db)
      | some _ =>
        let db2 : DB := { db with
          tickets := updateFirst db.tickets i payload db.now }
        match db2.tickets.find? (fun t => t._id == i) with
        | none => (.ok [], db2)
        | some doc => (.ok (encode_ticket_doc doc), db2)

/-- One echo step of the `ticket_ws` receive loop:
`await websocket.send_text(data)` back on the same connection. -/
def echo (ws : Handle) (inbox : Handle → List Frame) (s : String) :
    Handle → List Frame :=
  fun h => if h = ws then inbox h ++ [Frame.text s] else inbox h

/-- src/main.py `ticket_ws` (WS /ws/tickets/{ticket_id}): accept and register
the connection, echo every inbound text frame back verbatim on the same
connection (never persisting it), and when the receive loop ends with
`WebSocketDisconnect` (normal or abnormal close) unregister the connection.
`frames` is the sequence of inbound text frames received before the
disconnect. -/
def ticket_ws (w : World) (ticket_id : String) (ws : Handle)
    (frames : List String) : World :=
  { db := w.db,
    manager := disconnect (connect w.manager ticket_id ws) ticket_id ws,
    inbox := frames.foldl (echo ws) w.inbox }

/-- A Subscribe or Unsubscribe on a fixed ticket. -/
inductive SubOp where
  | sub (ws : Handle)
  | unsub (ws : Handle)
deriving DecidableEq, Repr

/-- Run a sequence of Subscribe/Unsubscribe operations through the
registry (`WSManager.connect` / `WSManager.disconnect`). -/
def runOps (ticket_id : String) : Registry → List SubOp → Registry
  | m, [] => m
  | m, SubOp.sub ws :: rest => runOps ticket_id (connect m ticket_id ws) rest
  | m, SubOp.unsub ws :: rest => runOps ticket_id (disconnect m ticket_id ws) rest

/-- The spec sentence's tracker with SET semantics: an addition inserts the
handle into a set, a removal deletes it from the set. -/
def trackSet : Finset Handle → List SubOp → Finset Handle
  | s, [] => s
  | s, SubOp.sub ws :: rest => trackSet (insert ws s) rest
  | s, SubOp.unsub ws :: rest => trackSet (s.erase ws) rest

/-- The tracker with MULTISET semantics: an addition adds one registration,
a removal removes one occurrence if present. -/
def trackMulti : Multiset Handle → List SubOp → Multiset Handle
  | s, [] => s
  | s, SubOp.sub ws :: rest => trackMulti (ws ::ₘ s) rest
  | s, SubOp.unsub ws :: rest => trackMulti (s.erase ws) rest

/-! ### Helper lemmas -/

/-- What the broadcast loop leaves in a handle's inbox: one copy of the
payload per registration of the handle under the ticket, when its sends
succeed; nothing otherwise. -/
theorem broadcast_inbox (conns : List Handle) (sendOk : Handle → Bool)
    (p : List (String × String)) (inbox : Handle → List Frame) (h : Handle) :
    broadcast conns sendOk p inbox h =
      inbox h ++
        List.replicate (if sendOk h then conns.count h else 0) (Frame.json p) := by
  induction conns generalizing inbox with
  | nil => cases hs : sendOk h <;> simp [broadcast]
  | cons ws rest ih =>
    rw [broadcast, ih]
    unfold safe_send
    by_cases hh : h = ws
    · subst hh
      cases hs : sendOk h
      · simp [hs]
      · simp [hs, List.count_cons_self, List.replicate_succ]
    · cases hs : sendOk ws
      · simp [hs, List.count_cons_of_ne hh]
      · simp [hs, hh, List.count_cons_of_ne hh]

/-- Unfolding of `post_message` when the body's ticket_id matches the path. -/
theorem post_message_okStep (w : World) (sendOk : Handle → Bool) (tid : String)
    (msg : Message) (hm : msg.ticket_id = tid) :
    post_message w sendOk tid msg =
      (.ok (encode_doc (newMessageDoc w.db msg)),
       ⟨{ w.db with
            messages := w.db.messages ++ [newMessageDoc w.db msg]
            nextId := w.db.nextId + 1 },
        w.manager,
        broadcast (w.manager tid) sendOk (publishedPayload w.db msg) w.inbox⟩) := by
  simp [post_message, hm]

/-- Folding the echo step over the inbound frames only appends the echoed
texts to the connection's own inbox. -/
theorem foldl_echo (frames : List String) (ws : Handle)
    (inbox : Handle → List Frame) (h : Handle) :
    frames.foldl (echo ws) inbox h =
      if h = ws then inbox h ++ frames.map Frame.text else inbox h := by
  induction frames generalizing inbox with
  | nil => by_cases hh : h = ws <;> simp [hh]
  | cons s rest ih =>
    rw [List.foldl_cons, ih]
    by_cases hh : h = ws
    · subst hh; simp [echo]
    · simp [echo, hh]

/-- The registry run of a Subscribe/Unsubscribe sequence, viewed as a
multiset, is multiset tracking of additions and removals. -/
theorem runOps_multiset (tid : String) (ops : List SubOp) (m : Registry) :
    (((runOps tid m ops) tid : List Handle) : Multiset Handle) =
      trackMulti ((m tid : List Handle) : Multiset Handle) ops := by
  induction ops generalizing m with
  | nil => rfl
  | cons op rest ih =>
    cases op with
    | sub ws =>
      rw [runOps, trackMulti, ih]
      have hc : connect m tid ws tid = m tid ++ [ws] := by simp [connect]
      rw [hc]
      congr 1
      exact Multiset.coe_eq_coe.mpr (List.perm_append_singleton ws (m tid))
    | unsub ws =>
      rw [runOps, trackMulti, ih]
      have hc : disconnect m tid ws tid = (m tid).erase ws := by simp [disconnect]
      rw [hc]
      congr 1

/-! ### Concrete fixtures used by witnesses and counterexamples -/

/-- An empty document store. -/
def db0 : DB := { tickets := [], messages := [], nextId := 5, now := 100 }

/-- A world with connections 0, 1, 2 subscribed to ticket "T1" and empty
inboxes. -/
def w0 : World :=
  { db := db0, manager := fun t => if t = "T1" then [0, 1, 2] else [],
    inbox := fun _ => [] }

/-- Sends to connection 1 fail; all other connections accept sends. -/
def sendOk0 : Handle → Bool := fun h => h != 1

/-- The spec scenario's message body on ticket "T1". -/
def msg0 : Message :=
  { ticket_id := "T1", sender_email := "a@x.com", content := "hello",
    type := "text" }

/-- A message body on ticket "T2". -/
def msg2 : Message :=
  { ticket_id := "T2", sender_email := "a@x.com", content := "hi",
    type := "text" }

/-! ### Claims -/

/-- C1: a Publish triggered by POST /tickets/{ticket_id}/messages returns the
persisted message to the caller no matter which deliveries fail, and every
connection registered under the ticket whose send succeeds still receives the
notification — delivery failure of one connection never blocks the others nor
surfaces an error. -/
theorem C1_publish_survives_delivery_failure (w : World) (sendOk : Handle → Bool)
    (tid : String) (msg : Message) (hm : msg.ticket_id = tid) :
    (post_message w sendOk tid msg).1 =
      .ok (encode_doc (newMessageDoc w.db msg)) ∧
    ∀ h, h ∈ w.manager tid → sendOk h = true →
      (post_message w sendOk tid msg).2.inbox h =
        w.inbox h ++ List.replicate ((w.manager tid).count h)
          (Frame.json (publishedPayload w.db msg)) := by
  rw [post_message_okStep w sendOk tid msg hm]
  refine ⟨rfl, fun h hmem hok => ?_⟩
  show broadcast (w.manager tid) sendOk (publishedPayload w.db msg) w.inbox h = _
  rw [broadcast_inbox, hok]
  simp

/-- C1 witness: three subscribers on "T1", delivery to connection 1 fails;
the request still succeeds and connections 0 and 2 are still served. -/
theorem C1_witness :
    msg0.ticket_id = "T1" ∧
    ((post_message w0 sendOk0 "T1" msg0).1 =
        .ok (encode_doc (newMessageDoc w0.db msg0)) ∧
      ∀ h, h ∈ w0.manager "T1" → sendOk0 h = true →
        (post_message w0 sendOk0 "T1" msg0).2.inbox h =
          w0.inbox h ++ List.replicate ((w0.manager "T1").count h)
            (Frame.json (publishedPayload w0.db msg0))) :=
  ⟨rfl, C1_publish_survives_delivery_failure w0 sendOk0 "T1" msg0 rfl⟩

/-- C2: a Publish delivers only to the connections currently registered under
the ticket: the request succeeds, a handle not registered under the ticket
(subscribed to another ticket, unsubscribed, or never subscribed) receives
nothing, and with zero subscribers nobody receives anything. -/
theorem C2_delivery_only_to_subscribers (w : World) (sendOk : Handle → Bool)
    (tid : String) (msg : Message) (hm : msg.ticket_id = tid) :
    (post_message w sendOk tid msg).1 =
      .ok (encode_doc (newMessageDoc w.db msg)) ∧
    (∀ h, h ∉ w.manager tid →
      (post_message w sendOk tid msg).2.inbox h = w.inbox h) ∧
    (w.manager tid = [] →
      (post_message w sendOk tid msg).2.inbox = w.inbox) := by
  rw [post_message_okStep w sendOk tid msg hm]
  refine ⟨rfl, fun h hmem => ?_, fun hz => ?_⟩
  · show broadcast (w.manager tid) sendOk (publishedPayload w.db msg) w.inbox h = _
    rw [broadcast_inbox]
    simp [List.count_eq_zero.mpr hmem]
  · show broadcast (w.manager tid) sendOk (publishedPayload w.db msg) w.inbox = _
    rw [hz]
    rfl

/-- C2 witness: listeners 0, 1, 2 sit on "T1"; publishing on "T2" (zero
subscribers) succeeds and delivers to nobody — in particular not to the
"T1" listeners. -/
theorem C2_witness :
    msg2.ticket_id = "T2" ∧
    ((post_message w0 sendOk0 "T2" msg2).1 =
        .ok (encode_doc (newMessageDoc w0.db msg2)) ∧
      (∀ h, h ∉ w0.manager "T2" →
        (post_message w0 sendOk0 "T2" msg2).2.inbox h = w0.inbox h) ∧
      (w0.manager "T2" = [] →
        (post_message w0 sendOk0 "T2" msg2).2.inbox = w0.inbox)) :=
  ⟨rfl, C2_delivery_only_to_subscribers w0 sendOk0 "T2" msg2 rfl⟩

/-- C7: a body whose ticket_id differs from the path identifier is rejected
with a 400 "ticket_id mismatch" and the whole state — in particular the
message collection — is returned unchanged: nothing was persisted. -/
theorem C7_mismatch_rejected_before_persistence (w : World)
    (sendOk : Handle → Bool) (tid : String) (msg : Message)
    (hm : msg.ticket_id ≠ tid) :
    post_message w sendOk tid msg = (.error ⟨400, "ticket_id mismatch"⟩, w) := by
  simp [post_message, hm]

/-- C7 witness: posting a body claiming "T2" on path "T1" changes nothing. -/
theorem C7_witness :
    msg2.ticket_id ≠ "T1" ∧
    post_message w0 sendOk0 "T1" msg2 = (.error ⟨400, "ticket_id mismatch"⟩, w0) :=
  ⟨by decide, C7_mismatch_rejected_before_persistence w0 sendOk0 "T1" msg2
    (by decide)⟩

/-- C5: two Publishes issued in order on the same ticket from the persisting
path are observed in publish order: a subscriber's inbox after both is its
previous content, then its copies of the first notification, then its copies
of the second; and a subscriber present for both has at least one copy of
each. -/
theorem C5_per_ticket_publish_order (w : World) (sendOk : Handle → Bool)
    (tid : String) (m1 m2 : Message) (h1 : m1.ticket_id = tid)
    (h2 : m2.ticket_id = tid) (h : Handle) (hok : sendOk h = true) :
    ((post_message (post_message w sendOk tid m1).2 sendOk tid m2).2.inbox h =
      w.inbox h ++
        List.replicate ((w.manager tid).count h)
          (Frame.json (publishedPayload w.db m1)) ++
        List.replicate ((w.manager tid).count h)
          (Frame.json
            (publishedPayload (post_message w sendOk tid m1).2.db m2))) ∧
    (h ∈ w.manager tid → 1 ≤ (w.manager tid).count h) := by
  rw [post_message_okStep w sendOk tid m1 h1]
  rw [post_message_okStep _ sendOk tid m2 h2]
  refine ⟨?_, fun hmem => List.count_pos_iff.mpr hmem⟩
  show broadcast (w.manager tid) sendOk _
      (broadcast (w.manager tid) sendOk (publishedPayload w.db m1) w.inbox) h = _
  rw [broadcast_inbox, broadcast_inbox, hok]
  simp [List.append_assoc]

/-- C5 witness: two messages posted in order on "T1"; subscriber 0 sees the
first notification before the second. -/
theorem C5_witness :
    msg0.ticket_id = "T1" ∧ msg0.ticket_id = "T1" ∧ sendOk0 0 = true ∧
    (((post_message (post_message w0 sendOk0 "T1" msg0).2 sendOk0 "T1"
          msg0).2.inbox 0 =
        w0.inbox 0 ++
          List.replicate ((w0.manager "T1").count 0)
            (Frame.json (publishedPayload w0.db msg0)) ++
          List.replicate ((w0.manager "T1").count 0)
            (Frame.json
              (publishedPayload (post_message w0 sendOk0 "T1" msg0).2.db
                msg0))) ∧
      (0 ∈ w0.manager "T1" → 1 ≤ (w0.manager "T1").count 0)) :=
  ⟨rfl, rfl, rfl,
    C5_per_ticket_publish_order w0 sendOk0 "T1" msg0 msg0 rfl rfl 0 rfl⟩

/-- C6: the notification payload for a persisted message carries exactly the
persisted fields — ticket identifier, sender email, content, type, creation
timestamp, message identifier — plus the "new_message" discriminator, and
every subscribed connection whose send succeeds receives exactly that
payload. -/
theorem C6_notification_payload_fields (w : World) (sendOk : Handle → Bool)
    (tid : String) (msg : Message) (hm : msg.ticket_id = tid) :
    (publishedPayload w.db msg).map Prod.fst =
      ["ticket_id", "sender_email", "content", "type", "created_at", "id",
       "event"] ∧
    (publishedPayload w.db msg).lookup "ticket_id" = some msg.ticket_id ∧
    (publishedPayload w.db msg).lookup "sender_email" =
      some msg.sender_email ∧
    (publishedPayload w.db msg).lookup "content" = some msg.content ∧
    (publishedPayload w.db msg).lookup "type" = some msg.type ∧
    (publishedPayload w.db msg).lookup "created_at" =
      some (toString w.db.now) ∧
    (publishedPayload w.db msg).lookup "id" = some (toString w.db.nextId) ∧
    (publishedPayload w.db msg).lookup "event" = some "new_message" ∧
    ∀ h, h ∈ w.manager tid → sendOk h = true →
      (post_message w sendOk tid msg).2.inbox h =
        w.inbox h ++ List.replicate ((w.manager tid).count h)
          (Frame.json (publishedPayload w.db msg)) := by
  refine ⟨rfl, rfl, rfl, rfl, rfl, rfl, rfl, rfl, fun h hmem hok => ?_⟩
  rw [post_message_okStep w sendOk tid msg hm]
  show broadcast (w.manager tid) sendOk (publishedPayload w.db msg) w.inbox h = _
  rw [broadcast_inbox, hok]
  simp

/-- C6 witness: the spec scenario — subscriber on "T1", message with content
"hello" persisted on "T1": the delivered payload has ticket_id "T1", content
"hello" and the new_message discriminator. -/
theorem C6_witness :
    msg0.ticket_id = "T1" ∧
    ((publishedPayload w0.db msg0).map Prod.fst =
        ["ticket_id", "sender_email", "content", "type", "created_at", "id",
         "event"] ∧
      (publishedPayload w0.db msg0).lookup "ticket_id" =
        some msg0.ticket_id ∧
      (publishedPayload w0.db msg0).lookup "sender_email" =
        some msg0.sender_email ∧
      (publishedPayload w0.db msg0).lookup "content" = some msg0.content ∧
      (publishedPayload w0.db msg0).lookup "type" = some msg0.type ∧
      (publishedPayload w0.db msg0).lookup "created_at" =
        some (toString w0.db.now) ∧
      (publishedPayload w0.db msg0).lookup "id" =
        some (toString w0.db.nextId) ∧
      (publishedPayload w0.db msg0).lookup "event" = some "new_message" ∧
      ∀ h, h ∈ w0.manager "T1" → sendOk0 h = true →
        (post_message w0 sendOk0 "T1" msg0).2.inbox h =
          w0.inbox h ++ List.replicate ((w0.manager "T1").count h)
            (Frame.json (publishedPayload w0.db msg0))) :=
  ⟨rfl, C6_notification_payload_fields w0 sendOk0 "T1" msg0 rfl⟩

/-- C10: the registry keeps a list, not a set: subscribing the same handle
twice to a ticket registers it twice, a Publish then delivers the
notification to it once per registration (twice), and a single Unsubscribe
removes only one registration, leaving the other in place. -/
theorem C10_duplicate_registrations (w : World) (sendOk : Handle → Bool)
    (tid : String) (msg : Message) (ws : Handle)
    (hfresh : ws ∉ w.manager tid) (hok : sendOk ws = true)
    (hm : msg.ticket_id = tid) :
    ((connect (connect w.manager tid ws) tid ws) tid =
      w.manager tid ++ [ws, ws]) ∧
    ((post_message ⟨w.db, connect (connect w.manager tid ws) tid ws, w.inbox⟩
        sendOk tid msg).2.inbox ws =
      w.inbox ws ++ List.replicate 2 (Frame.json (publishedPayload w.db msg))) ∧
    ((disconnect (connect (connect w.manager tid ws) tid ws) tid ws) tid =
      w.manager tid ++ [ws]) := by
  have hconn : (connect (connect w.manager tid ws) tid ws) tid =
      w.manager tid ++ [ws, ws] := by
    simp [connect]
  refine ⟨hconn, ?_, ?_⟩
  · rw [post_message_okStep _ sendOk tid msg hm]
    show broadcast _ sendOk _ w.inbox ws = _
    rw [broadcast_inbox, hok]
    have : ((⟨w.db, connect (connect w.manager tid ws) tid ws, w.inbox⟩ :
        World).manager tid).count ws = 2 := by
      show ((connect (connect w.manager tid ws) tid ws) tid).count ws = 2
      rw [hconn]
      simp [List.count_append, List.count_eq_zero.mpr hfresh]
    rw [this]
    simp
  · have hd : disconnect (connect (connect w.manager tid ws) tid ws) tid ws tid =
        ((connect (connect w.manager tid ws) tid ws) tid).erase ws := by
      simp [disconnect]
    rw [hd, hconn, List.erase_append_right _ hfresh, List.erase_cons_head]

/-- C10 witness: handle 7 subscribed twice to "T1" receives the notification
twice and survives one unsubscribe. -/
theorem C10_witness :
    (7 : Handle) ∉ w0.manager "T1" ∧ sendOk0 7 = true ∧
    msg0.ticket_id = "T1" ∧
    (((connect (connect w0.manager "T1" 7) "T1" 7) "T1" =
        w0.manager "T1" ++ [7, 7]) ∧
      ((post_message ⟨w0.db, connect (connect w0.manager "T1" 7) "T1" 7,
          w0.inbox⟩ sendOk0 "T1" msg0).2.inbox 7 =
        w0.inbox 7 ++
          List.replicate 2 (Frame.json (publishedPayload w0.db msg0))) ∧
      ((disconnect (connect (connect w0.manager "T1" 7) "T1" 7) "T1" 7) "T1" =
        w0.manager "T1" ++ [7])) :=
  ⟨by decide, rfl, rfl,
    C10_duplicate_registrations w0 sendOk0 "T1" msg0 7 (by decide) rfl rfl⟩

/-- C8: every inbound text frame on the per-ticket WebSocket is echoed back
verbatim on the same connection, and no message record is created: the
document store is untouched by the whole session. -/
theorem C8_echo_without_persistence (w : World) (tid : String) (ws : Handle)
    (frames : List String) :
    (ticket_ws w tid ws frames).inbox ws =
      w.inbox ws ++ frames.map Frame.text ∧
    (ticket_ws w tid ws frames).db = w.db := by
  refine ⟨?_, rfl⟩
  show frames.foldl (echo ws) w.inbox ws = _
  rw [foldl_echo]
  simp

/-- C9: when the receive loop ends with a disconnect (normal or abnormal
close), the session's registration is removed again — for a fresh connection
the registry returns exactly to its pre-session state — and no other
connection's inbox is touched by the session. -/
theorem C9_disconnect_recovers (w : World) (tid : String) (ws : Handle)
    (frames : List String) (hfresh : ws ∉ w.manager tid) :
    (∀ t, (ticket_ws w tid ws frames).manager t = w.manager t) ∧
    (∀ h, h ≠ ws → (ticket_ws w tid ws frames).inbox h = w.inbox h) := by
  constructor
  · intro t
    show disconnect (connect w.manager tid ws) tid ws t = w.manager t
    by_cases ht : t = tid
    · subst ht
      have he : disconnect (connect w.manager t ws) t ws t =
          (w.manager t ++ [ws]).erase ws := by
        simp [disconnect, connect]
      rw [he, List.erase_append_right _ hfresh, List.erase_cons_head]
      simp
    · simp [disconnect, connect, ht]
  · intro h hh
    show frames.foldl (echo ws) w.inbox h = w.inbox h
    rw [foldl_echo]
    simp [hh]

/-- C9 witness: a fresh connection 7 on "T1" sends "ping" and disconnects;
the registry is back to its pre-session state and the inboxes of the "T1"
listeners 0, 1, 2 are untouched. -/
theorem C9_witness :
    (7 : Handle) ∉ w0.manager "T1" ∧
    ((∀ t, (ticket_ws w0 "T1" 7 ["ping"]).manager t = w0.manager t) ∧
      (∀ h, h ≠ 7 → (ticket_ws w0 "T1" 7 ["ping"]).inbox h = w0.inbox h)) :=
  ⟨by decide, C9_disconnect_recovers w0 "T1" 7 ["ping"] (by decide)⟩

/-- A message body claiming the invalid-format ticket identifier "zzz". -/
def msgZ : Message :=
  { ticket_id := "zzz", sender_email := "a@x.com", content := "x",
    type := "text" }

/-- A PATCH body updating only the title. -/
def uTitle : TicketUpdate := { title := some "new title" }

/-- C3 counterexample: "zzz" is not a valid ObjectId, yet
POST /tickets/zzz/messages with a matching body is not signaled as a client
error — the handler persists the message and returns it, so the
message-create path both fails to reject the invalid identifier and mutates
stored state. -/
theorem C3_counterexample :
    isValidObjectId "zzz" = false ∧
    (post_message w0 sendOk0 "zzz" msgZ).1 =
      .ok (encode_doc (newMessageDoc w0.db msgZ)) ∧
    (post_message w0 sendOk0 "zzz" msgZ).2.db.messages =
      w0.db.messages ++ [newMessageDoc w0.db msgZ] ∧
    (post_message w0 sendOk0 "zzz" msgZ).2.db.messages ≠ w0.db.messages := by
  refine ⟨rfl, rfl, rfl, ?_⟩
  decide

/-- C3 (amended): an invalid-format ticket identifier is rejected with a 400
client error and no mutation on the ticket read path and on the ticket
update path with a nonempty update (an all-None update body short-circuits
to `{"updated": false}` before the identifier is parsed); the message-create
path does not validate the path identifier's format — it only compares it
with the body's ticket_id — and persists the message even under an
invalid-format identifier. -/
theorem C3_amended_identifier_validation (db : DB) (tid : String)
    (u : TicketUpdate) (hbad : isValidObjectId tid = false)
    (hne : u.nonempty = true) :
    get_ticket db tid = .error ⟨400, "Invalid ID format"⟩ ∧
    (update_ticket db tid u).1 = .error ⟨400, "Invalid ID format"⟩ ∧
    (update_ticket db tid u).2 = db ∧
    ∀ w sendOk (msg : Message), msg.ticket_id = tid →
      (post_message w sendOk tid msg).2.db.messages =
        w.db.messages ++ [newMessageDoc w.db msg] := by
  refine ⟨?_, ?_, ?_, fun w sendOk msg hm => ?_⟩
  · simp [get_ticket, oid, hbad]
  · simp [update_ticket, hne, oid, hbad]
  · simp [update_ticket, hne, oid, hbad]
  · rw [post_message_okStep w sendOk tid msg hm]

/-- C3 witness: identifier "zzz", a title-only update. -/
theorem C3_witness :
    isValidObjectId "zzz" = false ∧ uTitle.nonempty = true ∧
    (get_ticket db0 "zzz" = .error ⟨400, "Invalid ID format"⟩ ∧
      (update_ticket db0 "zzz" uTitle).1 = .error ⟨400, "Invalid ID format"⟩ ∧
      (update_ticket db0 "zzz" uTitle).2 = db0 ∧
      ∀ w sendOk (msg : Message), msg.ticket_id = "zzz" →
        (post_message w sendOk "zzz" msg).2.db.messages =
          w.db.messages ++ [newMessageDoc w.db msg]) :=
  ⟨rfl, rfl, C3_amended_identifier_validation db0 "zzz" uTitle rfl rfl⟩

/-- The empty registry. -/
def emptyReg : Registry := fun _ => []

/-- Subscribe handle 0 twice, then unsubscribe it once. -/
def dupOps : List SubOp := [SubOp.sub 0, SubOp.sub 0, SubOp.unsub 0]

/-- C4 counterexample: after subscribing handle 0 twice and unsubscribing it
once, the registry still lists handle 0, while set-tracking of the same
additions and removals yields the empty set — the registry's collection
does not equal the tracked set, not even after collapsing it to a set. -/
theorem C4_counterexample :
    (runOps "T1" emptyReg dupOps) "T1" = [0] ∧
    trackSet ∅ dupOps = ∅ ∧
    ((runOps "T1" emptyReg dupOps) "T1").toFinset ≠ trackSet ∅ dupOps := by
  refine ⟨by decide, by decide, by decide⟩

/-- C4 (amended): for every sequence of Subscribe/Unsubscribe operations on
one ticket, the registry's listener collection equals the MULTISET obtained
by tracking additions (one registration appended) and removals (one
occurrence removed when present); unsubscribing an absent handle is a no-op
that raises no error and leaves the registry unchanged. -/
theorem C4_amended_multiset_tracking (m : Registry) (tid : String)
    (ops : List SubOp) :
    ((((runOps tid m ops) tid : List Handle) : Multiset Handle) =
      trackMulti ((m tid : List Handle) : Multiset Handle) ops) ∧
    (∀ ws, ws ∉ m tid → ∀ t, (runOps tid m [SubOp.unsub ws]) t = m t) := by
  refine ⟨runOps_multiset tid ops m, fun ws hws t => ?_⟩
  show disconnect m tid ws t = m t
  by_cases ht : t = tid
  · subst ht
    simp [disconnect, List.erase_of_not_mem hws]
  · simp [disconnect, ht]

/-- C4 witness: subscribe 3 then unsubscribe the absent 9 on the empty
registry — multiset tracking agrees and the absent removal is a no-op. -/
theorem C4_witness :
    ((((runOps "T1" emptyReg [SubOp.sub 3, SubOp.unsub 9]) "T1" :
          List Handle) : Multiset Handle) =
      trackMulti ((emptyReg "T1" : List Handle) : Multiset Handle)
        [SubOp.sub 3, SubOp.unsub 9]) ∧
    (∀ ws, ws ∉ emptyReg "T1" → ∀ t,
      (runOps "T1" emptyReg [SubOp.unsub ws]) t = emptyReg t) :=
  C4_amended_multiset_tracking emptyReg "T1" [SubOp.sub 3, SubOp.unsub 9]

end CustomerService
